import Mathlib

/-
Verification development for the supercamera framed-stream receiver
(scripts/stream_receiver.py): the exact-read primitive `recv_exact`, the
header validator `parse_header`, and the per-frame decode step of
`run_receiver` (one header read, header validation, one payload read).

Modelling conventions:
  * A byte is a `Nat` (a Python byte value, 0..255 on real data).
  * The stream transport is modelled as the list of chunks the transport
    will deliver: `sock.recv k` hands over the next chunk, truncated to at
    most `k` bytes (the rest of the chunk stays queued).  An exhausted
    chunk list, or an explicit empty chunk, is the zero-length read that
    signals orderly closure.
  * Python exceptions become an explicit error type `DecodeError`:
    `ConnectionError` in `recv_exact` is `.connectionClosed`; the four
    `ValueError`s of `parse_header` are the four protocol errors, each
    carrying the offending value the f-string would report.
-/

namespace StreamReceiver

abbrev Byte := Nat

/-- Transport model: the chunks the peer's side of the connection will
deliver, in order. -/
abbrev ByteStream := List (List Byte)

/-- STREAM_MAGIC = 0x47535643 from the source. -/
def STREAM_MAGIC : Nat := 0x47535643

/-- STREAM_VERSION = 1 from the source. -/
def STREAM_VERSION : Nat := 1

/-- STREAM_CODEC_JPEG = 1 from the source. -/
def STREAM_CODEC_JPEG : Nat := 1

/-- Field widths, in bytes, of the struct format string "!IBBHHHIQI"
(big-endian; I = 4 bytes, B = 1 byte, H = 2 bytes, Q = 8 bytes). -/
def headerFieldWidths : List Nat := [4, 1, 1, 2, 2, 2, 4, 8, 4]

/-- HEADER_SIZE = struct.calcsize(HEADER_FORMAT) from the source. -/
def HEADER_SIZE : Nat := headerFieldWidths.sum

/-- MAX_PAYLOAD_SIZE = 1024 * 1024 from the source. -/
def MAX_PAYLOAD_SIZE : Nat := 1024 * 1024

/-- Errors raised by the decode path: `connectionClosed` is the
`ConnectionError("peer closed the connection")` of `recv_exact`; the other
four are the `ValueError`s of `parse_header`, carrying the offending value. -/
inductive DecodeError where
  | connectionClosed
  | badMagic (value : Nat)
  | unsupportedVersion (value : Nat)
  | unsupportedCodec (value : Nat)
  | payloadTooLarge (value : Nat)
deriving DecidableEq, Repr

/-- Embedding of `recv_exact(sock, size)`: loop while bytes remain, take the
next delivered chunk truncated to the remaining count, fail on a zero-length
read, accumulate otherwise.  Returns the accumulated bytes together with the
state of the transport after the call. -/
def recv_exact : ByteStream → Nat → Except DecodeError (List Byte × ByteStream)
  | s, 0 => .ok ([], s)
  | [], _ + 1 => .error .connectionClosed
  | chunk :: rest, n + 1 =>
    if chunk = [] then .error .connectionClosed
    else if chunk.length ≤ n + 1 then
      match recv_exact rest (n + 1 - chunk.length) with
      | .ok (tail, s) => .ok (chunk ++ tail, s)
      | .error e => .error e
    else .ok (chunk.take (n + 1), chunk.drop (n + 1) :: rest)

/-- Value of a big-endian byte string, as struct.unpack reads a field. -/
def beVal (bs : List Byte) : Nat := bs.foldl (fun acc b => acc * 256 + b) 0

/-- The magic field: bytes 0-3 of the header (struct "!I" at offset 0). -/
def hdrMagic (raw : List Byte) : Nat := beVal (raw.take 4)

/-- The version field: byte 4 of the header ("B" at offset 4). -/
def hdrVersion (raw : List Byte) : Nat := beVal ((raw.drop 4).take 1)

/-- The codec field: byte 5 of the header ("B" at offset 5). -/
def hdrCodec (raw : List Byte) : Nat := beVal ((raw.drop 5).take 1)

/-- The flags field: bytes 6-7 of the header ("H" at offset 6). -/
def hdrFlags (raw : List Byte) : Nat := beVal ((raw.drop 6).take 2)

/-- The source_id field: bytes 8-9 of the header ("H" at offset 8). -/
def hdrSourceId (raw : List Byte) : Nat := beVal ((raw.drop 8).take 2)

/-- The reserved field: bytes 10-11 of the header ("H" at offset 10). -/
def hdrReserved (raw : List Byte) : Nat := beVal ((raw.drop 10).take 2)

/-- The frame_id field: bytes 12-15 of the header ("I" at offset 12). -/
def hdrFrameId (raw : List Byte) : Nat := beVal ((raw.drop 12).take 4)

/-- The timestamp_us field: bytes 16-23 of the header ("Q" at offset 16). -/
def hdrTimestampUs (raw : List Byte) : Nat := beVal ((raw.drop 16).take 8)

/-- The payload_size field: bytes 24-27 of the header ("I" at offset 24). -/
def hdrPayloadSize (raw : List Byte) : Nat := beVal ((raw.drop 24).take 4)

/-- Embedding of `parse_header(raw_header)`: unpack the nine big-endian
fields, then validate magic, version, codec and payload_size in that order,
raising on the first failure, and return
`(source_id, frame_id, timestamp_us, payload_size)`. -/
def parse_header (raw : List Byte) : Except DecodeError (Nat × Nat × Nat × Nat) :=
  if hdrMagic raw ≠ STREAM_MAGIC then .error (.badMagic (hdrMagic raw))
  else if hdrVersion raw ≠ STREAM_VERSION then .error (.unsupportedVersion (hdrVersion raw))
  else if hdrCodec raw ≠ STREAM_CODEC_JPEG then .error (.unsupportedCodec (hdrCodec raw))
  else if MAX_PAYLOAD_SIZE < hdrPayloadSize raw then .error (.payloadTooLarge (hdrPayloadSize raw))
  else .ok (hdrSourceId raw, hdrFrameId raw, hdrTimestampUs raw, hdrPayloadSize raw)

/-- The frame record one loop iteration of `run_receiver` extracts: the
tuple returned by `parse_header` together with the payload bytes. -/
structure FrameRecord where
  source_id : Nat
  frame_id : Nat
  timestamp_us : Nat
  payload : List Byte
deriving DecidableEq, Repr

/-- One frame extraction, the protocol part of one `run_receiver` loop
iteration: `recv_exact` for the header, `parse_header`, `recv_exact` for
the payload. -/
def decodeFrame (s : ByteStream) : Except DecodeError (FrameRecord × ByteStream) :=
  match recv_exact s HEADER_SIZE with
  | .error e => .error e
  | .ok (raw_header, s₁) =>
    match parse_header raw_header with
    | .error e => .error e
    | .ok (source_id, frame_id, timestamp_us, payload_size) =>
      match recv_exact s₁ payload_size with
      | .error e => .error e
      | .ok (payload, s₂) =>
        .ok ({ source_id := source_id, frame_id := frame_id,
               timestamp_us := timestamp_us, payload := payload }, s₂)

/-- Decode outcome with the leftover stream flattened to its byte sequence,
so that outcomes of differently-chunked transports can be compared. -/
def decodeOutcome (s : ByteStream) : Except DecodeError (FrameRecord × List Byte) :=
  match decodeFrame s with
  | .ok (f, s') => .ok (f, s'.flatten)
  | .error e => .error e

/-- Reference decoder on the flat byte sequence a transport delivers before
closing: what `decodeFrame` computes, expressed without chunking. -/
def decodeBytes (bs : List Byte) : Except DecodeError (FrameRecord × List Byte) :=
  if bs.length < HEADER_SIZE then .error .connectionClosed
  else
    match parse_header (bs.take HEADER_SIZE) with
    | .error e => .error e
    | .ok (source_id, frame_id, timestamp_us, payload_size) =>
      if (bs.drop HEADER_SIZE).length < payload_size then .error .connectionClosed
      else .ok ({ source_id := source_id, frame_id := frame_id,
                  timestamp_us := timestamp_us,
                  payload := (bs.drop HEADER_SIZE).take payload_size },
                (bs.drop HEADER_SIZE).drop payload_size)

/-- Modelled from the spec: the sender-side wire encoding of a header
(section 6, not part of the receiver script): the nine fields in order,
big-endian, with widths 4,1,1,2,2,2,4,8,4. -/
def encodeHeader (magic version codec flags source_id reserved
    frame_id timestamp_us payload_size : Nat) : List Byte :=
  beBytes 4 magic ++ beBytes 1 version ++ beBytes 1 codec ++ beBytes 2 flags ++
  beBytes 2 source_id ++ beBytes 2 reserved ++ beBytes 4 frame_id ++
  beBytes 8 timestamp_us ++ beBytes 4 payload_size
where
  /-- Big-endian byte string of width w for a value v (truncating mod 256^w). -/
  beBytes : Nat → Nat → List Byte
    | 0, _ => []
    | w + 1, v => beBytes w (v / 256) ++ [v % 256]

/-- Verdict of header validation alone: `none` when the header is accepted,
`some e` when it is rejected with error `e`. -/
def headerVerdict (raw : List Byte) : Option DecodeError :=
  match parse_header raw with
  | .ok _ => none
  | .error e => some e

instance {ε α : Type} [DecidableEq ε] [DecidableEq α] :
    DecidableEq (Except ε α) := fun a b =>
  match a, b with
  | .ok x, .ok y =>
    if h : x = y then .isTrue (by rw [h]) else .isFalse (by simp [h])
  | .error x, .error y =>
    if h : x = y then .isTrue (by rw [h]) else .isFalse (by simp [h])
  | .ok _, .error _ => .isFalse (by simp)
  | .error _, .ok _ => .isFalse (by simp)

/-- Convenient fact: HEADER_SIZE computes to 28. -/
theorem HEADER_SIZE_eq : HEADER_SIZE = 28 := by decide

/-- A zero-byte exact read returns the empty buffer and leaves the
transport untouched: the loop body never runs. -/
theorem recv_exact_zero (s : ByteStream) : recv_exact s 0 = .ok ([], s) := by
  cases s <;> rfl

/-- When the transport will deliver at least n bytes (in nonempty chunks),
`recv_exact` succeeds with exactly the first n delivered bytes, leaving a
transport that will deliver exactly the remaining bytes, again in nonempty
chunks. -/
theorem recv_exact_ok (s : ByteStream) :
    ∀ n : Nat, (∀ c ∈ s, c ≠ []) → n ≤ s.flatten.length →
      ∃ s', recv_exact s n = .ok (s.flatten.take n, s') ∧
        s'.flatten = s.flatten.drop n ∧ ∀ c ∈ s', c ≠ [] := by
  induction s with
  | nil =>
    intro n _ hn
    simp only [List.flatten_nil, List.length_nil, Nat.le_zero] at hn
    subst hn
    exact ⟨[], rfl, by simp, by simp⟩
  | cons c rest ih =>
    intro n hne hn
    match n with
    | 0 => exact ⟨c :: rest, rfl, by simp, hne⟩
    | n + 1 =>
      have hc : c ≠ [] := hne c (List.mem_cons_self c rest)
      rw [List.flatten_cons] at hn ⊢
      simp only [List.length_append] at hn
      by_cases hcl : c.length ≤ n + 1
      · obtain ⟨s', hrec, hfl, hne'⟩ :=
          ih (n + 1 - c.length) (fun d hd => hne d (List.mem_cons_of_mem c hd))
            (by omega)
        refine ⟨s', ?_, ?_, hne'⟩
        · simp only [recv_exact]
          rw [if_neg hc, if_pos hcl, hrec,
            List.take_append_eq_append_take, List.take_of_length_le hcl]
        · rw [hfl, List.drop_append_eq_append_drop,
            List.drop_eq_nil_of_le hcl, List.nil_append]
      · push_neg at hcl
        refine ⟨c.drop (n + 1) :: rest, ?_, ?_, ?_⟩
        · simp only [recv_exact]
          rw [if_neg hc, if_neg (by omega : ¬ c.length ≤ n + 1),
            List.take_append_of_le_length (by omega)]
        · rw [List.flatten_cons, List.drop_append_of_le_length (by omega)]
        · intro d hd
          rcases List.mem_cons.mp hd with h | h
          · subst h
            have : (c.drop (n + 1)).length = c.length - (n + 1) :=
              List.length_drop (n + 1) c
            intro habs
            rw [habs] at this
            simp at this
            omega
          · exact hne d (List.mem_cons_of_mem c h)

/-- When the transport closes before delivering n bytes, `recv_exact`
fails with the peer-closed error. -/
theorem recv_exact_closed (s : ByteStream) :
    ∀ n : Nat, s.flatten.length < n →
      recv_exact s n = .error .connectionClosed := by
  induction s with
  | nil =>
    intro n hn
    match n with
    | n + 1 => rfl
  | cons c rest ih =>
    intro n hn
    rw [List.flatten_cons, List.length_append] at hn
    match n with
    | n + 1 =>
      by_cases hc : c = []
      · simp [recv_exact, hc]
      · have hcl : c.length ≤ n + 1 := by
          have := List.length_append c rest.flatten ▸ hn
          omega
        simp only [recv_exact, if_neg hc, if_pos hcl]
        rw [ih (n + 1 - c.length) (by omega)]

/-- A zero-length read is terminal: if an empty chunk (orderly-close
signal) arrives while bytes are still outstanding, `recv_exact` fails at
once, whatever the transport would have delivered afterwards. -/
theorem recv_exact_empty_chunk (pre : ByteStream) :
    ∀ (rest : ByteStream) (n : Nat), (∀ c ∈ pre, c ≠ []) →
      pre.flatten.length < n →
      recv_exact (pre ++ [] :: rest) n = .error .connectionClosed := by
  induction pre with
  | nil =>
    intro rest n _ hn
    match n with
    | n + 1 => simp [recv_exact]
  | cons c pre ih =>
    intro rest n hne hn
    rw [List.flatten_cons, List.length_append] at hn
    have hc : c ≠ [] := hne c (List.mem_cons_self c pre)
    match n with
    | n + 1 =>
      have hcl : c.length ≤ n + 1 := by omega
      simp only [List.cons_append, recv_exact, List.append_eq]
      rw [if_neg hc, if_pos hcl, ih rest (n + 1 - c.length)
        (fun d hd => hne d (List.mem_cons_of_mem c hd)) (by omega)]

/-- Master correspondence: over any transport chunking into nonempty
chunks, one decode step computes exactly the flat-byte-sequence decoder
`decodeBytes` applied to the concatenation of all delivered bytes. -/
theorem decodeOutcome_eq_decodeBytes (s : ByteStream) (hne : ∀ c ∈ s, c ≠ []) :
    decodeOutcome s = decodeBytes s.flatten := by
  unfold decodeOutcome decodeFrame decodeBytes
  by_cases h28 : HEADER_SIZE ≤ s.flatten.length
  · obtain ⟨s₁, hr, hf₁, hne₁⟩ := recv_exact_ok s HEADER_SIZE hne h28
    rw [if_neg (by omega)]
    cases hp : parse_header (s.flatten.take HEADER_SIZE) with
    | error e => simp [hr, hp]
    | ok q =>
      obtain ⟨sid, fid, ts, psz⟩ := q
      by_cases hpay : psz ≤ s₁.flatten.length
      · obtain ⟨s₂, hr₂, hf₂, _⟩ := recv_exact_ok s₁ psz hne₁ hpay
        simp only [hr, hp, hr₂]
        rw [if_neg (by rw [← hf₁]; omega), hf₂, hf₁]
      · simp only [hr, hp, recv_exact_closed s₁ psz (by omega)]
        rw [if_pos (by rw [← hf₁]; omega)]
  · push_neg at h28
    simp only [recv_exact_closed s HEADER_SIZE h28]
    rw [if_pos h28]

/-- Success half of the master correspondence, phrased for direct use:
when the flat decoder succeeds, `decodeFrame` succeeds with the same
record over any nonempty chunking, and the leftover transport again has
nonempty chunks. -/
theorem decodeFrame_ok_of_decodeBytes (s : ByteStream) (hne : ∀ c ∈ s, c ≠ [])
    (f : FrameRecord) (t : List Byte)
    (h : decodeBytes s.flatten = .ok (f, t)) :
    ∃ s', decodeFrame s = .ok (f, s') ∧ s'.flatten = t ∧ ∀ c ∈ s', c ≠ [] := by
  unfold decodeBytes at h
  by_cases h28 : HEADER_SIZE ≤ s.flatten.length
  · obtain ⟨s₁, hr, hf₁, hne₁⟩ := recv_exact_ok s HEADER_SIZE hne h28
    rw [if_neg (by omega)] at h
    cases hp : parse_header (s.flatten.take HEADER_SIZE) with
    | error e =>
      simp only [hp] at h
      exact absurd h (by simp)
    | ok q =>
      obtain ⟨sid, fid, ts, psz⟩ := q
      simp only [hp] at h
      by_cases hpay : psz ≤ s₁.flatten.length
      · obtain ⟨s₂, hr₂, hf₂, hne₂⟩ := recv_exact_ok s₁ psz hne₁ hpay
        rw [if_neg (by rw [← hf₁]; omega)] at h
        simp only [Except.ok.injEq, Prod.mk.injEq] at h
        obtain ⟨hf, ht⟩ := h
        refine ⟨s₂, ?_, ?_, hne₂⟩
        · unfold decodeFrame
          simp only [hr, hp, hr₂, hf₁]
          rw [hf]
        · rw [hf₂, hf₁]
          exact ht
      · rw [if_pos (by rw [← hf₁]; omega)] at h
        exact absurd h (by simp)
  · push_neg at h28
    rw [if_pos h28] at h
    exact absurd h (by simp)

/-- Error half of the master correspondence: when the flat decoder fails,
`decodeFrame` fails with the same error over any nonempty chunking. -/
theorem decodeFrame_error_of_decodeBytes (s : ByteStream) (hne : ∀ c ∈ s, c ≠ [])
    (e : DecodeError) (h : decodeBytes s.flatten = .error e) :
    decodeFrame s = .error e := by
  have hmain := decodeOutcome_eq_decodeBytes s hne
  rw [h] at hmain
  unfold decodeOutcome at hmain
  cases hd : decodeFrame s with
  | error e' => rw [hd] at hmain; cases hmain; rfl
  | ok q => obtain ⟨f', s'⟩ := q; rw [hd] at hmain; cases hmain

/-- beBytes always produces exactly its width in bytes. -/
theorem length_beBytes (w : Nat) : ∀ v : Nat, (encodeHeader.beBytes w v).length = w := by
  induction w with
  | zero => intro v; rfl
  | succ w ih =>
    intro v
    simp only [encodeHeader.beBytes, List.length_append, ih, List.length_cons,
      List.length_nil]

/-- Accumulator law for the big-endian fold. -/
theorem beVal_foldl (bs : List Byte) :
    ∀ a : Nat, bs.foldl (fun acc b => acc * 256 + b) a =
      a * 256 ^ bs.length + bs.foldl (fun acc b => acc * 256 + b) 0 := by
  induction bs with
  | nil => intro a; simp
  | cons x xs ih =>
    intro a
    simp only [List.foldl_cons, List.length_cons]
    rw [ih (a * 256 + x), ih (0 * 256 + x)]
    ring

/-- beVal of a concatenation. -/
theorem beVal_append (a b : List Byte) :
    beVal (a ++ b) = beVal a * 256 ^ b.length + beVal b := by
  unfold beVal
  rw [List.foldl_append, beVal_foldl]

/-- beVal inverts beBytes up to truncation at the field width. -/
theorem beVal_beBytes (w : Nat) : ∀ v : Nat,
    beVal (encodeHeader.beBytes w v) = v % 256 ^ w := by
  induction w with
  | zero => intro v; simp [encodeHeader.beBytes, beVal, Nat.mod_one]
  | succ w ih =>
    intro v
    simp only [encodeHeader.beBytes]
    rw [beVal_append, ih]
    have hmul : (256 : Nat) ^ (w + 1) = 256 * 256 ^ w := by
      rw [pow_succ, Nat.mul_comm]
    have hmod : v % 256 ^ (w + 1) = v % 256 + 256 * (v / 256 % 256 ^ w) := by
      rw [hmul, Nat.mod_mul]
    simp only [beVal, List.foldl_cons, List.foldl_nil, List.length_cons,
      List.length_nil, pow_one, Nat.zero_mul, Nat.zero_add]
    omega

/-- Reading the nine fields back out of an encoded header: each extractor
recovers its field, truncated to the field width, pinning down the offsets
and widths of the wire layout. -/
theorem encodeHeader_fields (m v c fl sid res fid ts psz : Nat) :
    hdrMagic (encodeHeader m v c fl sid res fid ts psz) = m % 256 ^ 4 ∧
    hdrVersion (encodeHeader m v c fl sid res fid ts psz) = v % 256 ∧
    hdrCodec (encodeHeader m v c fl sid res fid ts psz) = c % 256 ∧
    hdrFlags (encodeHeader m v c fl sid res fid ts psz) = fl % 256 ^ 2 ∧
    hdrSourceId (encodeHeader m v c fl sid res fid ts psz) = sid % 256 ^ 2 ∧
    hdrReserved (encodeHeader m v c fl sid res fid ts psz) = res % 256 ^ 2 ∧
    hdrFrameId (encodeHeader m v c fl sid res fid ts psz) = fid % 256 ^ 4 ∧
    hdrTimestampUs (encodeHeader m v c fl sid res fid ts psz) = ts % 256 ^ 8 ∧
    hdrPayloadSize (encodeHeader m v c fl sid res fid ts psz) = psz % 256 ^ 4 := by
  have d4 : (encodeHeader m v c fl sid res fid ts psz).drop 4 =
      encodeHeader.beBytes 1 v ++ (encodeHeader.beBytes 1 c ++
        (encodeHeader.beBytes 2 fl ++ (encodeHeader.beBytes 2 sid ++
          (encodeHeader.beBytes 2 res ++ (encodeHeader.beBytes 4 fid ++
            (encodeHeader.beBytes 8 ts ++ encodeHeader.beBytes 4 psz)))))) := by
    unfold encodeHeader
    simp only [List.append_assoc]
    exact List.drop_left' (length_beBytes 4 m)
  have d5 : (encodeHeader m v c fl sid res fid ts psz).drop 5 =
      encodeHeader.beBytes 1 c ++ (encodeHeader.beBytes 2 fl ++
        (encodeHeader.beBytes 2 sid ++ (encodeHeader.beBytes 2 res ++
          (encodeHeader.beBytes 4 fid ++ (encodeHeader.beBytes 8 ts ++
            encodeHeader.beBytes 4 psz))))) := by
    rw [(by norm_num : (5 : Nat) = 4 + 1), ← List.drop_drop, d4]
    exact List.drop_left' (length_beBytes 1 v)
  have d6 : (encodeHeader m v c fl sid res fid ts psz).drop 6 =
      encodeHeader.beBytes 2 fl ++ (encodeHeader.beBytes 2 sid ++
        (encodeHeader.beBytes 2 res ++ (encodeHeader.beBytes 4 fid ++
          (encodeHeader.beBytes 8 ts ++ encodeHeader.beBytes 4 psz)))) := by
    rw [(by norm_num : (6 : Nat) = 5 + 1), ← List.drop_drop, d5]
    exact List.drop_left' (length_beBytes 1 c)
  have d8 : (encodeHeader m v c fl sid res fid ts psz).drop 8 =
      encodeHeader.beBytes 2 sid ++ (encodeHeader.beBytes 2 res ++
        (encodeHeader.beBytes 4 fid ++ (encodeHeader.beBytes 8 ts ++
          encodeHeader.beBytes 4 psz))) := by
    rw [(by norm_num : (8 : Nat) = 6 + 2), ← List.drop_drop, d6]
    exact List.drop_left' (length_beBytes 2 fl)
  have d10 : (encodeHeader m v c fl sid res fid ts psz).drop 10 =
      encodeHeader.beBytes 2 res ++ (encodeHeader.beBytes 4 fid ++
        (encodeHeader.beBytes 8 ts ++ encodeHeader.beBytes 4 psz)) := by
    rw [(by norm_num : (10 : Nat) = 8 + 2), ← List.drop_drop, d8]
    exact List.drop_left' (length_beBytes 2 sid)
  have d12 : (encodeHeader m v c fl sid res fid ts psz).drop 12 =
      encodeHeader.beBytes 4 fid ++ (encodeHeader.beBytes 8 ts ++
        encodeHeader.beBytes 4 psz) := by
    rw [(by norm_num : (12 : Nat) = 10 + 2), ← List.drop_drop, d10]
    exact List.drop_left' (length_beBytes 2 res)
  have d16 : (encodeHeader m v c fl sid res fid ts psz).drop 16 =
      encodeHeader.beBytes 8 ts ++ encodeHeader.beBytes 4 psz := by
    rw [(by norm_num : (16 : Nat) = 12 + 4), ← List.drop_drop, d12]
    exact List.drop_left' (length_beBytes 4 fid)
  have d24 : (encodeHeader m v c fl sid res fid ts psz).drop 24 =
      encodeHeader.beBytes 4 psz := by
    rw [(by norm_num : (24 : Nat) = 16 + 8), ← List.drop_drop, d16]
    exact List.drop_left' (length_beBytes 8 ts)
  refine ⟨?_, ?_, ?_, ?_, ?_, ?_, ?_, ?_, ?_⟩
  · unfold hdrMagic encodeHeader
    simp only [List.append_assoc]
    rw [List.take_left' (length_beBytes 4 m), beVal_beBytes]
  · unfold hdrVersion
    rw [d4, List.take_left' (length_beBytes 1 v), beVal_beBytes, pow_one]
  · unfold hdrCodec
    rw [d5, List.take_left' (length_beBytes 1 c), beVal_beBytes, pow_one]
  · unfold hdrFlags
    rw [d6, List.take_left' (length_beBytes 2 fl), beVal_beBytes]
  · unfold hdrSourceId
    rw [d8, List.take_left' (length_beBytes 2 sid), beVal_beBytes]
  · unfold hdrReserved
    rw [d10, List.take_left' (length_beBytes 2 res), beVal_beBytes]
  · unfold hdrFrameId
    rw [d12, List.take_left' (length_beBytes 4 fid), beVal_beBytes]
  · unfold hdrTimestampUs
    rw [d16, List.take_left' (length_beBytes 8 ts), beVal_beBytes]
  · unfold hdrPayloadSize
    rw [d24, List.take_of_length_le (le_of_eq (length_beBytes 4 psz)),
      beVal_beBytes]

/-- Length of an encoded header: exactly the 28 header bytes. -/
theorem length_encodeHeader (m v c fl sid res fid ts psz : Nat) :
    (encodeHeader m v c fl sid res fid ts psz).length = HEADER_SIZE := by
  unfold encodeHeader
  simp only [List.length_append, length_beBytes]
  decide

/-- Parsing an encoded header with the protocol constants and in-range
fields succeeds and returns exactly the encoded field values. -/
theorem parse_header_encodeHeader (fl sid res fid ts psz : Nat)
    (hsid : sid < 2 ^ 16) (hfid : fid < 2 ^ 32) (hts : ts < 2 ^ 64)
    (hpsz : psz ≤ MAX_PAYLOAD_SIZE) :
    parse_header (encodeHeader STREAM_MAGIC STREAM_VERSION STREAM_CODEC_JPEG
      fl sid res fid ts psz) = .ok (sid, fid, ts, psz) := by
  obtain ⟨hm, hv, hc, _, hsrc, _, hfr, htm, hps⟩ :=
    encodeHeader_fields STREAM_MAGIC STREAM_VERSION STREAM_CODEC_JPEG
      fl sid res fid ts psz
  have hpsz32 : psz < 256 ^ 4 := by
    have : MAX_PAYLOAD_SIZE < 256 ^ 4 := by decide
    omega
  unfold parse_header
  rw [hm, hv, hc, hps, hsrc, hfr, htm]
  rw [Nat.mod_eq_of_lt (by decide : STREAM_MAGIC < 256 ^ 4),
    Nat.mod_eq_of_lt (by decide : STREAM_VERSION < 256),
    Nat.mod_eq_of_lt (by decide : STREAM_CODEC_JPEG < 256),
    Nat.mod_eq_of_lt hpsz32,
    Nat.mod_eq_of_lt (by omega : sid < 256 ^ 2),
    Nat.mod_eq_of_lt (by omega : fid < 256 ^ 4),
    Nat.mod_eq_of_lt (by omega : ts < 256 ^ 8)]
  simp [hpsz]

/-- C1: for every header with correct magic, version 1, codec 1 and
payload_size ≤ 1048576, followed in the stream by exactly payload_size
payload bytes, one decode invocation succeeds and returns a frame record
whose source_id, frame_id, timestamp_us and payload equal the values
encoded in the input bytes. -/
theorem decode_valid_frame (s : ByteStream) (fl sid res fid ts psz : Nat)
    (p : List Byte) (hs : ∀ c ∈ s, c ≠ []) (hsid : sid < 2 ^ 16)
    (hfid : fid < 2 ^ 32) (hts : ts < 2 ^ 64) (hpsz : psz ≤ MAX_PAYLOAD_SIZE)
    (hp : p.length = psz)
    (hflat : s.flatten = encodeHeader STREAM_MAGIC STREAM_VERSION
      STREAM_CODEC_JPEG fl sid res fid ts psz ++ p) :
    ∃ s', decodeFrame s = .ok (⟨sid, fid, ts, p⟩, s') ∧ s'.flatten = [] := by
  have henc := parse_header_encodeHeader fl sid res fid ts psz hsid hfid hts hpsz
  have hlen := length_encodeHeader STREAM_MAGIC STREAM_VERSION STREAM_CODEC_JPEG
    fl sid res fid ts psz
  have hdb : decodeBytes s.flatten = .ok (⟨sid, fid, ts, p⟩, []) := by
    unfold decodeBytes
    rw [hflat, if_neg (by simp only [List.length_append, hlen]; omega),
      List.take_left' hlen]
    simp only [henc]
    rw [List.drop_left' hlen, if_neg (by omega),
      List.take_of_length_le (le_of_eq hp), List.drop_eq_nil_of_le (le_of_eq hp)]
  obtain ⟨s', hd, hfl, _⟩ := decodeFrame_ok_of_decodeBytes s hs _ _ hdb
  exact ⟨s', hd, hfl⟩

/-- Witness for C1 at a concrete one-chunk stream carrying one valid
frame with source_id 2, frame_id 5, timestamp 9 and a 3-byte payload. -/
theorem decode_valid_frame_witness :
    ∃ s', decodeFrame [[0x47, 0x53, 0x56, 0x43, 1, 1, 0, 0, 0, 2, 0, 0,
        0, 0, 0, 5, 0, 0, 0, 0, 0, 0, 0, 9, 0, 0, 0, 3, 10, 20, 30]] =
      .ok (⟨2, 5, 9, [10, 20, 30]⟩, s') ∧ s'.flatten = [] :=
  decode_valid_frame
    [[0x47, 0x53, 0x56, 0x43, 1, 1, 0, 0, 0, 2, 0, 0, 0, 0, 0, 5,
      0, 0, 0, 0, 0, 0, 0, 9, 0, 0, 0, 3, 10, 20, 30]]
    0 2 0 5 9 3 [10, 20, 30] (by decide) (by decide) (by decide) (by decide)
    (by decide) (by decide) (by decide)

/-- C2: the four header checks run in the fixed order magic, version,
codec, payload_size bound, short-circuiting with the error that reports the
first offending value; the header read consumes exactly the 28 header
bytes, and on any validation failure the decode fails with that same error
whatever bytes follow the header (zero payload bytes are consumed). -/
theorem header_validation_order (raw t : List Byte) (s : ByteStream)
    (hraw : raw.length = 28) (hs : ∀ c ∈ s, c ≠ [])
    (hflat : s.flatten = raw ++ t) :
    (hdrMagic raw ≠ STREAM_MAGIC →
      parse_header raw = .error (.badMagic (hdrMagic raw))) ∧
    (hdrMagic raw = STREAM_MAGIC → hdrVersion raw ≠ STREAM_VERSION →
      parse_header raw = .error (.unsupportedVersion (hdrVersion raw))) ∧
    (hdrMagic raw = STREAM_MAGIC → hdrVersion raw = STREAM_VERSION →
      hdrCodec raw ≠ STREAM_CODEC_JPEG →
      parse_header raw = .error (.unsupportedCodec (hdrCodec raw))) ∧
    (hdrMagic raw = STREAM_MAGIC → hdrVersion raw = STREAM_VERSION →
      hdrCodec raw = STREAM_CODEC_JPEG →
      MAX_PAYLOAD_SIZE < hdrPayloadSize raw →
      parse_header raw = .error (.payloadTooLarge (hdrPayloadSize raw))) ∧
    (∃ s₁, recv_exact s HEADER_SIZE = .ok (raw, s₁) ∧ s₁.flatten = t ∧
      ∀ e, parse_header raw = .error e → decodeFrame s = .error e) := by
  have hraw' : raw.length = HEADER_SIZE := by rw [hraw, HEADER_SIZE_eq]
  refine ⟨?_, ?_, ?_, ?_, ?_⟩
  · intro h1
    unfold parse_header
    rw [if_pos h1]
  · intro h1 h2
    unfold parse_header
    rw [if_neg (not_not_intro h1), if_pos h2]
  · intro h1 h2 h3
    unfold parse_header
    rw [if_neg (not_not_intro h1), if_neg (not_not_intro h2), if_pos h3]
  · intro h1 h2 h3 h4
    unfold parse_header
    rw [if_neg (not_not_intro h1), if_neg (not_not_intro h2),
      if_neg (not_not_intro h3), if_pos h4]
  · have hle : HEADER_SIZE ≤ s.flatten.length := by
      rw [hflat, List.length_append, hraw']
      omega
    obtain ⟨s₁, hr, hf₁, _⟩ := recv_exact_ok s HEADER_SIZE hs hle
    rw [hflat, List.take_left' hraw'] at hr
    rw [hflat, List.drop_left' hraw'] at hf₁
    refine ⟨s₁, hr, hf₁, ?_⟩
    intro e he
    unfold decodeFrame
    simp only [hr, he]

/-- Witness for C2 at a concrete bad-magic header followed by two stray
payload bytes, delivered in one chunk. -/
theorem header_validation_order_witness :
    (hdrMagic [9, 9, 9, 9, 1, 1, 0, 0, 0, 2, 0, 0, 0, 0, 0, 5,
        0, 0, 0, 0, 0, 0, 0, 9, 0, 0, 0, 2] ≠ STREAM_MAGIC →
      parse_header [9, 9, 9, 9, 1, 1, 0, 0, 0, 2, 0, 0, 0, 0, 0, 5,
        0, 0, 0, 0, 0, 0, 0, 9, 0, 0, 0, 2] =
        .error (.badMagic (hdrMagic [9, 9, 9, 9, 1, 1, 0, 0, 0, 2, 0, 0,
          0, 0, 0, 5, 0, 0, 0, 0, 0, 0, 0, 9, 0, 0, 0, 2]))) ∧
    (hdrMagic [9, 9, 9, 9, 1, 1, 0, 0, 0, 2, 0, 0, 0, 0, 0, 5,
        0, 0, 0, 0, 0, 0, 0, 9, 0, 0, 0, 2] = STREAM_MAGIC →
      hdrVersion [9, 9, 9, 9, 1, 1, 0, 0, 0, 2, 0, 0, 0, 0, 0, 5,
        0, 0, 0, 0, 0, 0, 0, 9, 0, 0, 0, 2] ≠ STREAM_VERSION →
      parse_header [9, 9, 9, 9, 1, 1, 0, 0, 0, 2, 0, 0, 0, 0, 0, 5,
        0, 0, 0, 0, 0, 0, 0, 9, 0, 0, 0, 2] =
        .error (.unsupportedVersion (hdrVersion [9, 9, 9, 9, 1, 1, 0, 0,
          0, 2, 0, 0, 0, 0, 0, 5, 0, 0, 0, 0, 0, 0, 0, 9, 0, 0, 0, 2]))) ∧
    (hdrMagic [9, 9, 9, 9, 1, 1, 0, 0, 0, 2, 0, 0, 0, 0, 0, 5,
        0, 0, 0, 0, 0, 0, 0, 9, 0, 0, 0, 2] = STREAM_MAGIC →
      hdrVersion [9, 9, 9, 9, 1, 1, 0, 0, 0, 2, 0, 0, 0, 0, 0, 5,
        0, 0, 0, 0, 0, 0, 0, 9, 0, 0, 0, 2] = STREAM_VERSION →
      hdrCodec [9, 9, 9, 9, 1, 1, 0, 0, 0, 2, 0, 0, 0, 0, 0, 5,
        0, 0, 0, 0, 0, 0, 0, 9, 0, 0, 0, 2] ≠ STREAM_CODEC_JPEG →
      parse_header [9, 9, 9, 9, 1, 1, 0, 0, 0, 2, 0, 0, 0, 0, 0, 5,
        0, 0, 0, 0, 0, 0, 0, 9, 0, 0, 0, 2] =
        .error (.unsupportedCodec (hdrCodec [9, 9, 9, 9, 1, 1, 0, 0, 0, 2,
          0, 0, 0, 0, 0, 5, 0, 0, 0, 0, 0, 0, 0, 9, 0, 0, 0, 2]))) ∧
    (hdrMagic [9, 9, 9, 9, 1, 1, 0, 0, 0, 2, 0, 0, 0, 0, 0, 5,
        0, 0, 0, 0, 0, 0, 0, 9, 0, 0, 0, 2] = STREAM_MAGIC →
      hdrVersion [9, 9, 9, 9, 1, 1, 0, 0, 0, 2, 0, 0, 0, 0, 0, 5,
        0, 0, 0, 0, 0, 0, 0, 9, 0, 0, 0, 2] = STREAM_VERSION →
      hdrCodec [9, 9, 9, 9, 1, 1, 0, 0, 0, 2, 0, 0, 0, 0, 0, 5,
        0, 0, 0, 0, 0, 0, 0, 9, 0, 0, 0, 2] = STREAM_CODEC_JPEG →
      MAX_PAYLOAD_SIZE < hdrPayloadSize [9, 9, 9, 9, 1, 1, 0, 0, 0, 2, 0, 0,
        0, 0, 0, 5, 0, 0, 0, 0, 0, 0, 0, 9, 0, 0, 0, 2] →
      parse_header [9, 9, 9, 9, 1, 1, 0, 0, 0, 2, 0, 0, 0, 0, 0, 5,
        0, 0, 0, 0, 0, 0, 0, 9, 0, 0, 0, 2] =
        .error (.payloadTooLarge (hdrPayloadSize [9, 9, 9, 9, 1, 1, 0, 0,
          0, 2, 0, 0, 0, 0, 0, 5, 0, 0, 0, 0, 0, 0, 0, 9, 0, 0, 0, 2]))) ∧
    (∃ s₁, recv_exact [[9, 9, 9, 9, 1, 1, 0, 0, 0, 2, 0, 0, 0, 0, 0, 5,
        0, 0, 0, 0, 0, 0, 0, 9, 0, 0, 0, 2, 7, 8]] HEADER_SIZE =
        .ok ([9, 9, 9, 9, 1, 1, 0, 0, 0, 2, 0, 0, 0, 0, 0, 5,
          0, 0, 0, 0, 0, 0, 0, 9, 0, 0, 0, 2], s₁) ∧ s₁.flatten = [7, 8] ∧
      ∀ e, parse_header [9, 9, 9, 9, 1, 1, 0, 0, 0, 2, 0, 0, 0, 0, 0, 5,
          0, 0, 0, 0, 0, 0, 0, 9, 0, 0, 0, 2] = .error e →
        decodeFrame [[9, 9, 9, 9, 1, 1, 0, 0, 0, 2, 0, 0, 0, 0, 0, 5,
          0, 0, 0, 0, 0, 0, 0, 9, 0, 0, 0, 2, 7, 8]] = .error e) :=
  header_validation_order
    [9, 9, 9, 9, 1, 1, 0, 0, 0, 2, 0, 0, 0, 0, 0, 5,
      0, 0, 0, 0, 0, 0, 0, 9, 0, 0, 0, 2] [7, 8]
    [[9, 9, 9, 9, 1, 1, 0, 0, 0, 2, 0, 0, 0, 0, 0, 5,
      0, 0, 0, 0, 0, 0, 0, 9, 0, 0, 0, 2, 7, 8]]
    (by decide) (by decide) (by decide)

/-- C3: for any target count n, the exact-read primitive accumulates
exactly n bytes across however many chunked reads the transport needs;
if the deliverable bytes run out first it fails with the peer-closed
error, and a zero-length read (empty chunk) while bytes are outstanding
fails immediately, with no retry, whatever the transport would deliver
afterwards. -/
theorem recv_exact_contract (s pre rest : ByteStream) (n : Nat)
    (hs : ∀ c ∈ s, c ≠ []) (hpre : ∀ c ∈ pre, c ≠ []) :
    (n ≤ s.flatten.length →
      ∃ s', recv_exact s n = .ok (s.flatten.take n, s') ∧
        (s.flatten.take n).length = n ∧ s'.flatten = s.flatten.drop n) ∧
    (s.flatten.length < n → recv_exact s n = .error .connectionClosed) ∧
    (pre.flatten.length < n →
      recv_exact (pre ++ [] :: rest) n = .error .connectionClosed) := by
  refine ⟨?_, recv_exact_closed s n, recv_exact_empty_chunk pre rest n hpre⟩
  intro hn
  obtain ⟨s', hr, hf, _⟩ := recv_exact_ok s n hs hn
  exact ⟨s', hr, by rw [List.length_take]; omega, hf⟩

/-- Witness for C3: a 3-byte exact read over a transport delivering 2+2
bytes, and the no-retry failure when an empty chunk follows one byte even
though more data is queued behind it. -/
theorem recv_exact_contract_witness :
    (3 ≤ ([[1, 2], [3, 4]] : ByteStream).flatten.length →
      ∃ s', recv_exact [[1, 2], [3, 4]] 3 =
          .ok (([[1, 2], [3, 4]] : ByteStream).flatten.take 3, s') ∧
        (([[1, 2], [3, 4]] : ByteStream).flatten.take 3).length = 3 ∧
        s'.flatten = ([[1, 2], [3, 4]] : ByteStream).flatten.drop 3) ∧
    (([[1, 2], [3, 4]] : ByteStream).flatten.length < 3 →
      recv_exact [[1, 2], [3, 4]] 3 = .error .connectionClosed) ∧
    (([[9]] : ByteStream).flatten.length < 3 →
      recv_exact ([[9]] ++ [] :: [[5, 5, 5, 5]]) 3 =
        .error .connectionClosed) :=
  recv_exact_contract [[1, 2], [3, 4]] [[9]] [[5, 5, 5, 5]] 3
    (by decide) (by decide)

/-- C4: a stream that closes mid-header (k delivered bytes, 0 < k < 28)
makes decoding fail with the connection-closed error, not a protocol or
parse error; and a stream that closes after a complete valid header but
before payload_size payload bytes likewise fails with connection-closed. -/
theorem closed_stream_errors (s s₂ : ByteStream) (raw part : List Byte)
    (sid fid ts psz : Nat)
    (hs : ∀ c ∈ s, c ≠ []) (hs₂ : ∀ c ∈ s₂, c ≠ [])
    (hk : 0 < s.flatten.length) (hk28 : s.flatten.length < 28)
    (hraw : raw.length = 28)
    (hparse : parse_header raw = .ok (sid, fid, ts, psz))
    (hpart : part.length < psz)
    (hflat : s₂.flatten = raw ++ part) :
    decodeFrame s = .error .connectionClosed ∧
    decodeFrame s₂ = .error .connectionClosed := by
  have hraw' : raw.length = HEADER_SIZE := by rw [hraw, HEADER_SIZE_eq]
  constructor
  · apply decodeFrame_error_of_decodeBytes s hs
    unfold decodeBytes
    rw [if_pos (by rw [HEADER_SIZE_eq]; omega)]
  · apply decodeFrame_error_of_decodeBytes s₂ hs₂
    unfold decodeBytes
    rw [hflat, if_neg (by simp only [List.length_append, hraw']; omega),
      List.take_left' hraw']
    simp only [hparse]
    rw [List.drop_left' hraw', if_pos hpart]

/-- Witness for C4: a stream closing after 2 header bytes, and a stream
closing after a valid header announcing 3 payload bytes but delivering 1. -/
theorem closed_stream_errors_witness :
    decodeFrame [[0x47, 0x53]] = .error .connectionClosed ∧
    decodeFrame [[0x47, 0x53, 0x56, 0x43, 1, 1, 0, 0, 0, 2, 0, 0, 0, 0, 0, 5,
      0, 0, 0, 0, 0, 0, 0, 9, 0, 0, 0, 3, 10]] = .error .connectionClosed :=
  closed_stream_errors [[0x47, 0x53]]
    [[0x47, 0x53, 0x56, 0x43, 1, 1, 0, 0, 0, 2, 0, 0, 0, 0, 0, 5,
      0, 0, 0, 0, 0, 0, 0, 9, 0, 0, 0, 3, 10]]
    [0x47, 0x53, 0x56, 0x43, 1, 1, 0, 0, 0, 2, 0, 0, 0, 0, 0, 5,
      0, 0, 0, 0, 0, 0, 0, 9, 0, 0, 0, 3] [10]
    2 5 9 3 (by decide) (by decide) (by decide) (by decide) (by decide)
    (by decide) (by decide) (by decide)

/-- C5: the header wire format the decoder parses is exactly 28 bytes,
big-endian, fields in the order and widths magic u32, version u8, codec u8,
flags u16, source_id u16, reserved u16, frame_id u32, timestamp_us u64,
payload_size u32, with constants magic 0x47535643, version 1, codec 1 and
MAX_PAYLOAD_SIZE 1048576. -/
theorem wire_format_layout (m v c fl sid res fid ts psz : Nat) :
    HEADER_SIZE = 28 ∧ STREAM_MAGIC = 0x47535643 ∧ STREAM_VERSION = 1 ∧
    STREAM_CODEC_JPEG = 1 ∧ MAX_PAYLOAD_SIZE = 1048576 ∧
    (encodeHeader m v c fl sid res fid ts psz).length = 28 ∧
    hdrMagic (encodeHeader m v c fl sid res fid ts psz) = m % 2 ^ 32 ∧
    hdrVersion (encodeHeader m v c fl sid res fid ts psz) = v % 2 ^ 8 ∧
    hdrCodec (encodeHeader m v c fl sid res fid ts psz) = c % 2 ^ 8 ∧
    hdrFlags (encodeHeader m v c fl sid res fid ts psz) = fl % 2 ^ 16 ∧
    hdrSourceId (encodeHeader m v c fl sid res fid ts psz) = sid % 2 ^ 16 ∧
    hdrReserved (encodeHeader m v c fl sid res fid ts psz) = res % 2 ^ 16 ∧
    hdrFrameId (encodeHeader m v c fl sid res fid ts psz) = fid % 2 ^ 32 ∧
    hdrTimestampUs (encodeHeader m v c fl sid res fid ts psz) = ts % 2 ^ 64 ∧
    hdrPayloadSize (encodeHeader m v c fl sid res fid ts psz) = psz % 2 ^ 32 := by
  obtain ⟨hm, hv, hc, hf, hsrc, hres, hfr, htm, hps⟩ :=
    encodeHeader_fields m v c fl sid res fid ts psz
  have e8 : (256 : Nat) = 2 ^ 8 := by norm_num
  have e16 : (256 : Nat) ^ 2 = 2 ^ 16 := by norm_num
  have e32 : (256 : Nat) ^ 4 = 2 ^ 32 := by norm_num
  have e64 : (256 : Nat) ^ 8 = 2 ^ 64 := by norm_num
  refine ⟨by decide, by decide, by decide, by decide, by decide,
    by rw [length_encodeHeader, HEADER_SIZE_eq], ?_, ?_, ?_, ?_, ?_, ?_,
    ?_, ?_, ?_⟩
  · rw [hm, e32]
  · rw [hv, e8]
  · rw [hc, e8]
  · rw [hf, e16]
  · rw [hsrc, e16]
  · rw [hres, e16]
  · rw [hfr, e32]
  · rw [htm, e64]
  · rw [hps, e32]

/-- C6: two valid frames concatenated on one stream decode, in two
successive invocations, to the two matching frame records, each decode
leaving the stream at the next frame boundary and the second leaving it at
end-of-input. -/
theorem two_frames_back_to_back (s : ByteStream)
    (hd₁ hd₂ p₁ p₂ : List Byte) (sid₁ fid₁ ts₁ sid₂ fid₂ ts₂ : Nat)
    (hs : ∀ c ∈ s, c ≠ [])
    (hl₁ : hd₁.length = 28) (hl₂ : hd₂.length = 28)
    (hph₁ : parse_header hd₁ = .ok (sid₁, fid₁, ts₁, p₁.length))
    (hph₂ : parse_header hd₂ = .ok (sid₂, fid₂, ts₂, p₂.length))
    (hflat : s.flatten = hd₁ ++ p₁ ++ hd₂ ++ p₂) :
    ∃ s₁ s₂, decodeFrame s = .ok (⟨sid₁, fid₁, ts₁, p₁⟩, s₁) ∧
      s₁.flatten = hd₂ ++ p₂ ∧
      decodeFrame s₁ = .ok (⟨sid₂, fid₂, ts₂, p₂⟩, s₂) ∧
      s₂.flatten = [] := by
  have hl₁' : hd₁.length = HEADER_SIZE := by rw [hl₁, HEADER_SIZE_eq]
  have hl₂' : hd₂.length = HEADER_SIZE := by rw [hl₂, HEADER_SIZE_eq]
  have hdb₁ : decodeBytes s.flatten = .ok (⟨sid₁, fid₁, ts₁, p₁⟩, hd₂ ++ p₂) := by
    unfold decodeBytes
    rw [hflat]
    simp only [List.append_assoc]
    rw [if_neg (by simp only [List.length_append, hl₁']; omega),
      List.take_left' hl₁']
    simp only [hph₁]
    rw [List.drop_left' hl₁',
      if_neg (by simp only [List.length_append]; omega),
      List.take_left' rfl, List.drop_left' rfl]
  obtain ⟨s₁, hdec₁, hfl₁, hne₁⟩ := decodeFrame_ok_of_decodeBytes s hs _ _ hdb₁
  have hdb₂ : decodeBytes s₁.flatten = .ok (⟨sid₂, fid₂, ts₂, p₂⟩, []) := by
    unfold decodeBytes
    rw [hfl₁, if_neg (by simp only [List.length_append, hl₂']; omega),
      List.take_left' hl₂']
    simp only [hph₂]
    rw [List.drop_left' hl₂', if_neg (by omega),
      List.take_of_length_le (le_refl p₂.length),
      List.drop_eq_nil_of_le (le_refl p₂.length)]
  obtain ⟨s₂, hdec₂, hfl₂, _⟩ := decodeFrame_ok_of_decodeBytes s₁ hne₁ _ _ hdb₂
  exact ⟨s₁, s₂, hdec₁, hfl₁, hdec₂, hfl₂⟩

/-- Witness for C6: two concrete valid frames (payloads [10,20,30] and [7])
concatenated into a single delivered chunk. -/
theorem two_frames_back_to_back_witness :
    ∃ s₁ s₂, decodeFrame [[0x47, 0x53, 0x56, 0x43, 1, 1, 0, 0, 0, 2, 0, 0,
        0, 0, 0, 5, 0, 0, 0, 0, 0, 0, 0, 9, 0, 0, 0, 3, 10, 20, 30,
        0x47, 0x53, 0x56, 0x43, 1, 1, 0, 0, 0, 4, 0, 0, 0, 0, 0, 6,
        0, 0, 0, 0, 0, 0, 0, 8, 0, 0, 0, 1, 7]] =
        .ok (⟨2, 5, 9, [10, 20, 30]⟩, s₁) ∧
      s₁.flatten = [0x47, 0x53, 0x56, 0x43, 1, 1, 0, 0, 0, 4, 0, 0,
        0, 0, 0, 6, 0, 0, 0, 0, 0, 0, 0, 8, 0, 0, 0, 1] ++ [7] ∧
      decodeFrame s₁ = .ok (⟨4, 6, 8, [7]⟩, s₂) ∧
      s₂.flatten = [] :=
  two_frames_back_to_back
    [[0x47, 0x53, 0x56, 0x43, 1, 1, 0, 0, 0, 2, 0, 0, 0, 0, 0, 5,
      0, 0, 0, 0, 0, 0, 0, 9, 0, 0, 0, 3, 10, 20, 30,
      0x47, 0x53, 0x56, 0x43, 1, 1, 0, 0, 0, 4, 0, 0, 0, 0, 0, 6,
      0, 0, 0, 0, 0, 0, 0, 8, 0, 0, 0, 1, 7]]
    [0x47, 0x53, 0x56, 0x43, 1, 1, 0, 0, 0, 2, 0, 0, 0, 0, 0, 5,
      0, 0, 0, 0, 0, 0, 0, 9, 0, 0, 0, 3]
    [0x47, 0x53, 0x56, 0x43, 1, 1, 0, 0, 0, 4, 0, 0, 0, 0, 0, 6,
      0, 0, 0, 0, 0, 0, 0, 8, 0, 0, 0, 1]
    [10, 20, 30] [7] 2 5 9 4 6 8
    (by decide) (by decide) (by decide) (by decide) (by decide) (by decide)

/-- C7: the decode outcome (frame record on success, failure kind
otherwise, together with the bytes left over) is a function of the
delivered byte sequence alone: any two nonempty-chunk deliveries of the
same bytes decode identically. -/
theorem chunking_independence (s₁ s₂ : ByteStream)
    (hs₁ : ∀ c ∈ s₁, c ≠ []) (hs₂ : ∀ c ∈ s₂, c ≠ [])
    (hflat : s₁.flatten = s₂.flatten) :
    decodeOutcome s₁ = decodeOutcome s₂ := by
  rw [decodeOutcome_eq_decodeBytes s₁ hs₁, decodeOutcome_eq_decodeBytes s₂ hs₂,
    hflat]

/-- Witness for C7: one three-byte chunk versus three one-byte chunks of
the same bytes. -/
theorem chunking_independence_witness :
    decodeOutcome [[1, 2, 3]] = decodeOutcome [[1], [2], [3]] :=
  chunking_independence [[1, 2, 3]] [[1], [2], [3]]
    (by decide) (by decide) (by decide)

/-- C8 counterexample: flags is not passed through to the decoder's
output.  Two frames identical except for the flags field (0 versus
0xFFFF) decode to literally the same frame record, so no part of the
output carries the flags value. -/
theorem flags_dropped_counterexample :
    hdrFlags [0x47, 0x53, 0x56, 0x43, 1, 1, 0, 0, 0, 2, 0, 0, 0, 0, 0, 5,
      0, 0, 0, 0, 0, 0, 0, 9, 0, 0, 0, 1] = 0 ∧
    hdrFlags [0x47, 0x53, 0x56, 0x43, 1, 1, 255, 255, 0, 2, 0, 0, 0, 0, 0, 5,
      0, 0, 0, 0, 0, 0, 0, 9, 0, 0, 0, 1] = 65535 ∧
    decodeFrame [[0x47, 0x53, 0x56, 0x43, 1, 1, 0, 0, 0, 2, 0, 0, 0, 0, 0, 5,
      0, 0, 0, 0, 0, 0, 0, 9, 0, 0, 0, 1, 171]] =
      .ok (⟨2, 5, 9, [171]⟩, []) ∧
    decodeFrame [[0x47, 0x53, 0x56, 0x43, 1, 1, 255, 255, 0, 2, 0, 0, 0, 0,
      0, 5, 0, 0, 0, 0, 0, 0, 0, 9, 0, 0, 0, 1, 171]] =
      .ok (⟨2, 5, 9, [171]⟩, []) :=
  ⟨by decide, by decide, by decide, by decide⟩

/-- C8 (amended): the flags field is not validated — a header is accepted
whatever its flags bytes hold — and it is ignored rather than passed
through: header parsing gives the same result for any two headers that
agree outside the flags bytes (bytes 6-7). -/
theorem flags_unvalidated_and_ignored (raw₁ raw₂ : List Byte)
    (fl sid res fid ts psz : Nat)
    (h6 : raw₁.take 6 = raw₂.take 6) (h8 : raw₁.drop 8 = raw₂.drop 8)
    (hsid : sid < 2 ^ 16) (hfid : fid < 2 ^ 32) (hts : ts < 2 ^ 64)
    (hpsz : psz ≤ MAX_PAYLOAD_SIZE) :
    parse_header raw₁ = parse_header raw₂ ∧
    parse_header (encodeHeader STREAM_MAGIC STREAM_VERSION STREAM_CODEC_JPEG
      fl sid res fid ts psz) = .ok (sid, fid, ts, psz) := by
  have htake4 : ∀ r : List Byte, r.take 4 = (r.take 6).take 4 := by
    intro r
    rw [List.take_take]
    norm_num
  have htake41 : ∀ r : List Byte, (r.drop 4).take 1 = ((r.take 6).drop 4).take 1 := by
    intro r
    rw [List.drop_take, List.take_take]
    norm_num
  have htake51 : ∀ r : List Byte, (r.drop 5).take 1 = (r.take 6).drop 5 := by
    intro r
    rw [List.drop_take]
  have hdrop12 : ∀ r : List Byte, r.drop 12 = (r.drop 8).drop 4 := by
    intro r
    rw [List.drop_drop]
  have hdrop16 : ∀ r : List Byte, r.drop 16 = (r.drop 8).drop 8 := by
    intro r
    rw [List.drop_drop]
  have hdrop24 : ∀ r : List Byte, r.drop 24 = (r.drop 8).drop 16 := by
    intro r
    rw [List.drop_drop]
  have emagic : hdrMagic raw₁ = hdrMagic raw₂ := by
    unfold hdrMagic
    rw [htake4 raw₁, htake4 raw₂, h6]
  have eversion : hdrVersion raw₁ = hdrVersion raw₂ := by
    unfold hdrVersion
    rw [htake41 raw₁, htake41 raw₂, h6]
  have ecodec : hdrCodec raw₁ = hdrCodec raw₂ := by
    unfold hdrCodec
    rw [htake51 raw₁, htake51 raw₂, h6]
  have esrc : hdrSourceId raw₁ = hdrSourceId raw₂ := by
    unfold hdrSourceId
    rw [h8]
  have efid : hdrFrameId raw₁ = hdrFrameId raw₂ := by
    unfold hdrFrameId
    rw [hdrop12 raw₁, hdrop12 raw₂, h8]
  have ets : hdrTimestampUs raw₁ = hdrTimestampUs raw₂ := by
    unfold hdrTimestampUs
    rw [hdrop16 raw₁, hdrop16 raw₂, h8]
  have epsz : hdrPayloadSize raw₁ = hdrPayloadSize raw₂ := by
    unfold hdrPayloadSize
    rw [hdrop24 raw₁, hdrop24 raw₂, h8]
  constructor
  · unfold parse_header
    rw [emagic, eversion, ecodec, epsz, esrc, efid, ets]
  · exact parse_header_encodeHeader fl sid res fid ts psz hsid hfid hts hpsz

/-- Witness for the amended C8: headers differing only in flags (0 versus
0xFFFF) parse identically, and a header encoded with flags 0xFFFF is
accepted. -/
theorem flags_unvalidated_and_ignored_witness :
    parse_header [0x47, 0x53, 0x56, 0x43, 1, 1, 0, 0, 0, 2, 0, 0, 0, 0, 0, 5,
      0, 0, 0, 0, 0, 0, 0, 9, 0, 0, 0, 1] =
      parse_header [0x47, 0x53, 0x56, 0x43, 1, 1, 255, 255, 0, 2, 0, 0, 0, 0,
        0, 5, 0, 0, 0, 0, 0, 0, 0, 9, 0, 0, 0, 1] ∧
    parse_header (encodeHeader STREAM_MAGIC STREAM_VERSION STREAM_CODEC_JPEG
      65535 2 0 5 9 1) = .ok (2, 5, 9, 1) :=
  flags_unvalidated_and_ignored
    [0x47, 0x53, 0x56, 0x43, 1, 1, 0, 0, 0, 2, 0, 0, 0, 0, 0, 5,
      0, 0, 0, 0, 0, 0, 0, 9, 0, 0, 0, 1]
    [0x47, 0x53, 0x56, 0x43, 1, 1, 255, 255, 0, 2, 0, 0, 0, 0, 0, 5,
      0, 0, 0, 0, 0, 0, 0, 9, 0, 0, 0, 1]
    65535 2 0 5 9 1 (by decide) (by decide) (by decide) (by decide)
    (by decide) (by decide)

/-- C9: a zero-byte exact read returns an empty buffer without touching
the stream, so a valid header announcing payload_size 0 decodes to a frame
with an empty payload, consuming exactly the 28 header bytes. -/
theorem zero_payload_frame (s s₀ : ByteStream) (raw rest : List Byte)
    (sid fid ts : Nat) (hs : ∀ c ∈ s, c ≠ []) (hraw : raw.length = 28)
    (hparse : parse_header raw = .ok (sid, fid, ts, 0))
    (hflat : s.flatten = raw ++ rest) :
    recv_exact s₀ 0 = .ok ([], s₀) ∧
    ∃ s', decodeFrame s = .ok (⟨sid, fid, ts, []⟩, s') ∧ s'.flatten = rest := by
  have hraw' : raw.length = HEADER_SIZE := by rw [hraw, HEADER_SIZE_eq]
  refine ⟨recv_exact_zero s₀, ?_⟩
  have hdb : decodeBytes s.flatten = .ok (⟨sid, fid, ts, []⟩, rest) := by
    unfold decodeBytes
    rw [hflat, if_neg (by simp only [List.length_append, hraw']; omega),
      List.take_left' hraw']
    simp only [hparse]
    rw [List.drop_left' hraw', if_neg (by omega), List.take_zero,
      List.drop_zero]
  obtain ⟨s', hd, hfl, _⟩ := decodeFrame_ok_of_decodeBytes s hs _ _ hdb
  exact ⟨s', hd, hfl⟩

/-- Witness for C9: a concrete zero-payload frame followed by two bytes of
the next frame. -/
theorem zero_payload_frame_witness :
    recv_exact [[7]] 0 = .ok ([], [[7]]) ∧
    ∃ s', decodeFrame [[0x47, 0x53, 0x56, 0x43, 1, 1, 0, 0, 0, 2, 0, 0,
        0, 0, 0, 5, 0, 0, 0, 0, 0, 0, 0, 9, 0, 0, 0, 0, 9, 9]] =
      .ok (⟨2, 5, 9, []⟩, s') ∧ s'.flatten = [9, 9] :=
  zero_payload_frame
    [[0x47, 0x53, 0x56, 0x43, 1, 1, 0, 0, 0, 2, 0, 0, 0, 0, 0, 5,
      0, 0, 0, 0, 0, 0, 0, 9, 0, 0, 0, 0, 9, 9]]
    [[7]]
    [0x47, 0x53, 0x56, 0x43, 1, 1, 0, 0, 0, 2, 0, 0, 0, 0, 0, 5,
      0, 0, 0, 0, 0, 0, 0, 9, 0, 0, 0, 0] [9, 9]
    2 5 9 (by decide) (by decide) (by decide) (by decide)

/-- C10: the accept/reject verdict of header validation, including the
error kind on rejection, depends only on the magic, version, codec and
payload_size bytes: two headers agreeing on those four byte ranges get the
same verdict whatever their flags, source_id, reserved, frame_id and
timestamp_us bytes are. -/
theorem verdict_depends_only_on_checked_fields (raw₁ raw₂ : List Byte)
    (hm : raw₁.take 4 = raw₂.take 4)
    (hv : (raw₁.drop 4).take 1 = (raw₂.drop 4).take 1)
    (hc : (raw₁.drop 5).take 1 = (raw₂.drop 5).take 1)
    (hp : (raw₁.drop 24).take 4 = (raw₂.drop 24).take 4) :
    headerVerdict raw₁ = headerVerdict raw₂ := by
  have emagic : hdrMagic raw₁ = hdrMagic raw₂ := by
    unfold hdrMagic
    rw [hm]
  have eversion : hdrVersion raw₁ = hdrVersion raw₂ := by
    unfold hdrVersion
    rw [hv]
  have ecodec : hdrCodec raw₁ = hdrCodec raw₂ := by
    unfold hdrCodec
    rw [hc]
  have epsz : hdrPayloadSize raw₁ = hdrPayloadSize raw₂ := by
    unfold hdrPayloadSize
    rw [hp]
  unfold headerVerdict parse_header
  rw [emagic, eversion, ecodec, epsz]
  by_cases c1 : hdrMagic raw₂ ≠ STREAM_MAGIC
  · rw [if_pos c1, if_pos c1]
  · rw [if_neg c1, if_neg c1]
    by_cases c2 : hdrVersion raw₂ ≠ STREAM_VERSION
    · rw [if_pos c2, if_pos c2]
    · rw [if_neg c2, if_neg c2]
      by_cases c3 : hdrCodec raw₂ ≠ STREAM_CODEC_JPEG
      · rw [if_pos c3, if_pos c3]
      · rw [if_neg c3, if_neg c3]
        by_cases c4 : MAX_PAYLOAD_SIZE < hdrPayloadSize raw₂
        · rw [if_pos c4, if_pos c4]
        · rw [if_neg c4, if_neg c4]

/-- Witness for C10: two headers identical on the four checked byte ranges
but with different source_id, frame_id, timestamp and flags bytes receive
the same verdict. -/
theorem verdict_depends_only_on_checked_fields_witness :
    headerVerdict [0x47, 0x53, 0x56, 0x43, 1, 1, 0, 0, 0, 2, 0, 0,
        0, 0, 0, 5, 0, 0, 0, 0, 0, 0, 0, 9, 0, 0, 0, 3] =
      headerVerdict [0x47, 0x53, 0x56, 0x43, 1, 1, 255, 255, 0, 77, 3, 4,
        0, 0, 1, 0, 0, 0, 0, 0, 0, 0, 2, 2, 0, 0, 0, 3] :=
  verdict_depends_only_on_checked_fields
    [0x47, 0x53, 0x56, 0x43, 1, 1, 0, 0, 0, 2, 0, 0,
      0, 0, 0, 5, 0, 0, 0, 0, 0, 0, 0, 9, 0, 0, 0, 3]
    [0x47, 0x53, 0x56, 0x43, 1, 1, 255, 255, 0, 77, 3, 4,
      0, 0, 1, 0, 0, 0, 0, 0, 0, 0, 2, 2, 0, 0, 0, 3]
    (by decide) (by decide) (by decide) (by decide)

end StreamReceiver
